import Mathlib

/-
Verification of the global executor layer of the Swift concurrency runtime
(stdlib/public/Concurrency/GlobalExecutor.cpp), via a shallow embedding.

Each public entry point is embedded as a function from the current hook-slot
state and its arguments to the list of observable events it performs, in
program order: thread-sanitizer release annotations, trace emissions, hook
invocations (carrying the arguments and the reference to the default
implementation that the hook receives), and default-implementation calls.
Executor references and the main-executor query are embedded as pure values
and functions, mirroring the two build configurations selected by the
SWIFT_CONCURRENCY_ENABLE_DISPATCH preprocessor flag.
-/

namespace GlobalExecutor

/-- A Job pointer, opaque to this layer; identified by its address. -/
abbrev Job := Nat

/-- JobDelay is an unsigned integer count of nanoseconds. -/
abbrev JobDelay := Nat

/-- References to the four default (backend) implementations that the entry
points pass to their hooks: swift_task_enqueueGlobalImpl,
swift_task_enqueueGlobalWithDelayImpl, swift_task_enqueueGlobalWithDeadlineImpl
and swift_task_enqueueMainExecutorImpl. -/
inductive ImplRef
  | enqueueGlobalImpl
  | enqueueGlobalWithDelayImpl
  | enqueueGlobalWithDeadlineImpl
  | enqueueMainExecutorImpl
  deriving DecidableEq, Repr

/-- The argument tuple handed to a hook or to a default implementation, in the
source order of the corresponding C function parameters. -/
inductive EnqueueArgs
  | global (job : Job)
  | withDelay (delay : JobDelay) (job : Job)
  | withDeadline (sec nsec tsec tnsec : Int) (clock : Int) (job : Job)
  | mainExecutor (job : Job)
  deriving DecidableEq, Repr

/-- Payload of a concurrency::trace emission.  The tracing facility used by
GlobalExecutor.cpp exposes exactly three job-enqueue events:
job_enqueue_global, job_enqueue_global_with_delay and
job_enqueue_main_executor; there is no deadline-tagged event. -/
inductive TraceEventData
  | jobEnqueueGlobal (job : Job)
  | jobEnqueueGlobalWithDelay (delay : JobDelay) (job : Job)
  | jobEnqueueMainExecutor (job : Job)
  deriving DecidableEq, Repr

/-- Observable actions of the embedded entry points, in program order. -/
inductive Event
  | tsanRelease (job : Job)
  | trace (data : TraceEventData)
  | hookCall (hook : Nat) (args : EnqueueArgs) (original : ImplRef)
  | implCall (impl : ImplRef) (args : EnqueueArgs)
  | stderrWrite
  | setMainActorImplCall (executor selfType wtable : Nat)
  deriving DecidableEq, Repr

/-- The four process-wide hook slots (function pointers, none when null),
declared at GlobalExecutor.cpp lines 73 to 93.  A some value is the address of
the installed hook function. -/
structure HookState where
  swift_task_enqueueGlobal_hook : Option Nat
  swift_task_enqueueGlobalWithDelay_hook : Option Nat
  swift_task_enqueueGlobalWithDeadline_hook : Option Nat
  swift_task_enqueueMainExecutor_hook : Option Nat
  deriving DecidableEq, Repr

/-- All four hook globals are initialized to nullptr in the source. -/
def initialHooks : HookState :=
  { swift_task_enqueueGlobal_hook := none
    swift_task_enqueueGlobalWithDelay_hook := none
    swift_task_enqueueGlobalWithDeadline_hook := none
    swift_task_enqueueMainExecutor_hook := none }

/-- Embedding of swift::swift_task_enqueueGlobal (lines 112 to 121): a tsan
release of the job, the job_enqueue_global trace, then either the hook with
(job, swift_task_enqueueGlobalImpl) or the default implementation with job. -/
def swift_task_enqueueGlobal (hooks : HookState) (job : Job) : List Event :=
  [Event.tsanRelease job,
   Event.trace (TraceEventData.jobEnqueueGlobal job)] ++
  match hooks.swift_task_enqueueGlobal_hook with
  | some h => [Event.hookCall h (EnqueueArgs.global job) ImplRef.enqueueGlobalImpl]
  | none => [Event.implCall ImplRef.enqueueGlobalImpl (EnqueueArgs.global job)]

/-- Embedding of swift::swift_task_enqueueGlobalWithDelay (lines 123 to 131):
the job_enqueue_global_with_delay trace, then hook or default implementation
with (delay, job). -/
def swift_task_enqueueGlobalWithDelay (hooks : HookState) (delay : JobDelay)
    (job : Job) : List Event :=
  [Event.trace (TraceEventData.jobEnqueueGlobalWithDelay delay job)] ++
  match hooks.swift_task_enqueueGlobalWithDelay_hook with
  | some h =>
      [Event.hookCall h (EnqueueArgs.withDelay delay job)
        ImplRef.enqueueGlobalWithDelayImpl]
  | none =>
      [Event.implCall ImplRef.enqueueGlobalWithDelayImpl
        (EnqueueArgs.withDelay delay job)]

/-- Embedding of swift::swift_task_enqueueGlobalWithDeadline (lines 133 to
144): no tsan annotation and no trace emission; directly the hook or the
default implementation with (sec, nsec, tsec, tnsec, clock, job). -/
def swift_task_enqueueGlobalWithDeadline (hooks : HookState)
    (sec nsec tsec tnsec : Int) (clock : Int) (job : Job) : List Event :=
  match hooks.swift_task_enqueueGlobalWithDeadline_hook with
  | some h =>
      [Event.hookCall h (EnqueueArgs.withDeadline sec nsec tsec tnsec clock job)
        ImplRef.enqueueGlobalWithDeadlineImpl]
  | none =>
      [Event.implCall ImplRef.enqueueGlobalWithDeadlineImpl
        (EnqueueArgs.withDeadline sec nsec tsec tnsec clock job)]

/-- Embedding of swift::swift_task_enqueueMainExecutor (lines 146 to 153):
the job_enqueue_main_executor trace, then hook or default implementation. -/
def swift_task_enqueueMainExecutor (hooks : HookState) (job : Job) : List Event :=
  [Event.trace (TraceEventData.jobEnqueueMainExecutor job)] ++
  match hooks.swift_task_enqueueMainExecutor_hook with
  | some h =>
      [Event.hookCall h (EnqueueArgs.mainExecutor job)
        ImplRef.enqueueMainExecutorImpl]
  | none =>
      [Event.implCall ImplRef.enqueueMainExecutorImpl
        (EnqueueArgs.mainExecutor job)]

/-- Embedding of swift::swift_concurrency_setMainActorExecutor (lines 159 to
165): an unconditional fprintf to stderr, then a single call to
swift_concurrency_setMainActorExecutorImpl with the three arguments unchanged.
Its hook slot is commented out in the source (lines 95 to 99), so no hook is
consulted. -/
def swift_concurrency_setMainActorExecutor (executor selfType wtable : Nat) :
    List Event :=
  [Event.stderrWrite, Event.setMainActorImplCall executor selfType wtable]

/-- Hook invocations occurring in an event list, in order, with the arguments
and the original-implementation reference each received. -/
def hookCallsOf : List Event → List (Nat × EnqueueArgs × ImplRef)
  | [] => []
  | Event.hookCall h args original :: rest => (h, args, original) :: hookCallsOf rest
  | _ :: rest => hookCallsOf rest

/-- Default-implementation invocations occurring in an event list, in order. -/
def implCallsOf : List Event → List (ImplRef × EnqueueArgs)
  | [] => []
  | Event.implCall impl args :: rest => (impl, args) :: implCallsOf rest
  | _ :: rest => implCallsOf rest

/-- Trace emissions occurring in an event list, in order. -/
def traceEventsOf : List Event → List TraceEventData
  | [] => []
  | Event.trace data :: rest => data :: traceEventsOf rest
  | _ :: rest => traceEventsOf rest

/-- Argument tuples routed onward (to a hook or to a default implementation),
in order. -/
def routedArgsOf : List Event → List EnqueueArgs
  | [] => []
  | Event.hookCall _ args _ :: rest => args :: routedArgsOf rest
  | Event.implCall _ args :: rest => args :: routedArgsOf rest
  | _ :: rest => routedArgsOf rest

/-- Calls to swift_concurrency_setMainActorExecutorImpl in an event list. -/
def setMainActorImplCallsOf : List Event → List (Nat × Nat × Nat)
  | [] => []
  | Event.setMainActorImplCall e s w :: rest => (e, s, w) :: setMainActorImplCallsOf rest
  | _ :: rest => setMainActorImplCallsOf rest

/-- Number of stderr diagnostic writes in an event list. -/
def stderrWriteCount : List Event → Nat
  | [] => 0
  | Event.stderrWrite :: rest => stderrWriteCount rest + 1
  | _ :: rest => stderrWriteCount rest

/-- Whether an event is a trace emission. -/
def isTraceEvent : Event → Bool
  | Event.trace _ => true
  | _ => false

/-- Whether an event routes the job onward (hook call or default
implementation call). -/
def isRoutingEvent : Event → Bool
  | Event.hookCall _ _ _ => true
  | Event.implCall _ _ => true
  | _ => false

/-- True when a trace emission occurs strictly before any routing event in the
list. -/
def traceBeforeRouting : List Event → Bool
  | [] => false
  | e :: rest =>
    if isTraceEvent e then true
    else if isRoutingEvent e then false
    else traceBeforeRouting rest

/-- An ExecutorRef from the ABI: a pair of an identity pointer and an
implementation word (witness table pointer or flags).  Addresses are modelled
as naturals, 0 standing for the null pointer. -/
structure ExecutorRef where
  Identity : Nat
  Implementation : Nat
  deriving DecidableEq, Repr

/-- Modelled from the spec: the generic executor reference constructor
ExecutorRef::generic() from the ABI header (not under src/); the generic
reference has a null identity and a null implementation word. -/
def ExecutorRef.generic : ExecutorRef :=
  { Identity := 0, Implementation := 0 }

/-- Modelled from the spec: ExecutorRef::isGeneric() from the ABI header (not
under src/); a reference is generic exactly when its identity is null. -/
def ExecutorRef.isGeneric (e : ExecutorRef) : Bool :=
  e.Identity == 0

/-- Modelled from the spec: ExecutorRef::forOrdinary(identity, witnessTable)
from the ABI header (not under src/); packages an identity with a serial
executor witness table. -/
def ExecutorRef.forOrdinary (identity wtable : Nat) : ExecutorRef :=
  { Identity := identity, Implementation := wtable }

/-- The address of the statically allocated dispatch main queue
_dispatch_main_q: an opaque, fixed, nonzero address. -/
def dispatchMainQAddr : Nat := 1

/-- The address of the dispatch-queue SerialExecutor witness table returned by
_swift_task_getDispatchQueueSerialExecutorWitnessTable(): opaque and fixed. -/
def dispatchSerialExecutorWitnessTableAddr : Nat := 2

/-- Embedding of swift::swift_task_getMainExecutor (lines 167 to 176).  The
enableDispatch flag is the SWIFT_CONCURRENCY_ENABLE_DISPATCH build setting:
without dispatch the generic reference is returned; with dispatch, a reference
to the dispatch main queue with the serial-executor witness table. -/
def swift_task_getMainExecutor (enableDispatch : Bool) : ExecutorRef :=
  if !enableDispatch then
    ExecutorRef.generic
  else
    ExecutorRef.forOrdinary dispatchMainQAddr dispatchSerialExecutorWitnessTableAddr

/-- Embedding of ExecutorRef::isMainExecutor (lines 178 to 185).  Without
dispatch it reduces to isGeneric; with dispatch it compares the identity
against the address of _dispatch_main_q.  The body reads nothing else: in
particular it performs no load of mainExecutorIdentityOverride. -/
def ExecutorRef.isMainExecutor (enableDispatch : Bool) (e : ExecutorRef) : Bool :=
  if !enableDispatch then
    e.isGeneric
  else
    e.Identity == dispatchMainQAddr

/-- The two process-wide override cells declared at lines 101 to 102:
mainExecutorIdentityOverride and mainExecutorImplementationOverride
(atomics, zero-initialized, none when null). -/
structure MainOverrideState where
  mainExecutorIdentityOverride : Option Nat
  mainExecutorImplementationOverride : Option Nat
  deriving DecidableEq, Repr

/-- Static zero-initialization of the two override atomics. -/
def initialMainOverride : MainOverrideState :=
  { mainExecutorIdentityOverride := none
    mainExecutorImplementationOverride := none }

/-- Modelled from the spec: swift_concurrency_setMainActorExecutorImpl (in the
backend .inc files, not under src/) atomically installs the new main-executor
identity and implementation into the two override cells. -/
def setMainActorExecutorImplModel (executor wtable : Nat)
    (st : MainOverrideState) : MainOverrideState :=
  { mainExecutorIdentityOverride := some executor
    mainExecutorImplementationOverride := some wtable }

/-- ExecutorRef::isMainExecutor as observed in a given process state.  The
source body (lines 178 to 185) reads only the reference and the build flag and
never loads either override cell, so the result ignores the state argument. -/
def isMainExecutorInState (enableDispatch : Bool) (st : MainOverrideState)
    (e : ExecutorRef) : Bool :=
  e.isMainExecutor enableDispatch

/-- State of the serial main-executor queue: jobs accepted but not yet run, in
arrival order, and jobs already run, in execution order. -/
structure MainQueueState where
  pending : List Job
  executed : List Job
  deriving DecidableEq, Repr

/-- An interleaving step: either some thread completes a main-executor enqueue
of a job, or the single main thread dequeues and runs the next pending job. -/
inductive MainThreadStep
  | enqueueCompleted (job : Job)
  | runNext
  deriving DecidableEq, Repr

/-- Modelled from the spec: the main-context backend queue (the dispatch main
serial queue bound to the primary thread; its implementation,
swift_task_enqueueMainExecutorImpl, is in the backend .inc files, not under
src/).  An enqueue completion appends the job at the tail; the main thread
runs exactly one job per step, taken from the head. -/
def mainQueueStep (s : MainQueueState) : MainThreadStep → MainQueueState
  | MainThreadStep.enqueueCompleted j => { s with pending := s.pending ++ [j] }
  | MainThreadStep.runNext =>
    match s.pending with
    | [] => s
    | j :: rest => { pending := rest, executed := s.executed ++ [j] }

/-- The empty main queue at process start. -/
def mainQueueInit : MainQueueState :=
  { pending := [], executed := [] }

/-- Runs a serialized interleaving of enqueue completions and main-thread
steps from the initial state. -/
def mainQueueRun (steps : List MainThreadStep) : MainQueueState :=
  steps.foldl mainQueueStep mainQueueInit

/-- The jobs whose enqueue calls completed, in completion order. -/
def enqueueOrder (steps : List MainThreadStep) : List Job :=
  steps.filterMap fun s =>
    match s with
    | MainThreadStep.enqueueCompleted j => some j
    | MainThreadStep.runNext => none

/-- C1: for each of the four enqueue entry points and every hook state and
arguments, a non-null hook slot means the hook is invoked exactly once with
the arguments and the reference to the default implementation and the default
implementation is not invoked by the entry point; a null slot means the
default implementation is invoked exactly once with the same arguments and no
hook is invoked. -/
theorem C1_hook_dispatch :
    ∀ (hooks : HookState) (job : Job) (delay : JobDelay)
      (sec nsec tsec tnsec clock : Int),
    (hookCallsOf (swift_task_enqueueGlobal hooks job) =
        (match hooks.swift_task_enqueueGlobal_hook with
         | some h => [(h, EnqueueArgs.global job, ImplRef.enqueueGlobalImpl)]
         | none => [])
      ∧ implCallsOf (swift_task_enqueueGlobal hooks job) =
        (match hooks.swift_task_enqueueGlobal_hook with
         | some _ => []
         | none => [(ImplRef.enqueueGlobalImpl, EnqueueArgs.global job)]))
  ∧ (hookCallsOf (swift_task_enqueueGlobalWithDelay hooks delay job) =
        (match hooks.swift_task_enqueueGlobalWithDelay_hook with
         | some h => [(h, EnqueueArgs.withDelay delay job,
                       ImplRef.enqueueGlobalWithDelayImpl)]
         | none => [])
      ∧ implCallsOf (swift_task_enqueueGlobalWithDelay hooks delay job) =
        (match hooks.swift_task_enqueueGlobalWithDelay_hook with
         | some _ => []
         | none => [(ImplRef.enqueueGlobalWithDelayImpl,
                     EnqueueArgs.withDelay delay job)]))
  ∧ (hookCallsOf (swift_task_enqueueGlobalWithDeadline hooks sec nsec tsec tnsec clock job) =
        (match hooks.swift_task_enqueueGlobalWithDeadline_hook with
         | some h => [(h, EnqueueArgs.withDeadline sec nsec tsec tnsec clock job,
                       ImplRef.enqueueGlobalWithDeadlineImpl)]
         | none => [])
      ∧ implCallsOf (swift_task_enqueueGlobalWithDeadline hooks sec nsec tsec tnsec clock job) =
        (match hooks.swift_task_enqueueGlobalWithDeadline_hook with
         | some _ => []
         | none => [(ImplRef.enqueueGlobalWithDeadlineImpl,
                     EnqueueArgs.withDeadline sec nsec tsec tnsec clock job)]))
  ∧ (hookCallsOf (swift_task_enqueueMainExecutor hooks job) =
        (match hooks.swift_task_enqueueMainExecutor_hook with
         | some h => [(h, EnqueueArgs.mainExecutor job,
                       ImplRef.enqueueMainExecutorImpl)]
         | none => [])
      ∧ implCallsOf (swift_task_enqueueMainExecutor hooks job) =
        (match hooks.swift_task_enqueueMainExecutor_hook with
         | some _ => []
         | none => [(ImplRef.enqueueMainExecutorImpl,
                     EnqueueArgs.mainExecutor job)])) := by
  intro hooks job delay sec nsec tsec tnsec clock
  obtain ⟨g, d, dl, m⟩ := hooks
  cases g <;> cases d <;> cases dl <;> cases m <;>
    exact ⟨⟨rfl, rfl⟩, ⟨rfl, rfl⟩, ⟨rfl, rfl⟩, ⟨rfl, rfl⟩⟩

/-- C2 fails as stated: at the concrete input (sec 1, nsec 2, tsec 3, tnsec 4,
clock 0, job 7) with no hooks installed, the deadline entry point
swift_task_enqueueGlobalWithDeadline emits zero trace events, whereas the
claim requires exactly one for every entry point. -/
theorem C2_deadline_no_trace_counterexample :
    traceEventsOf (swift_task_enqueueGlobalWithDeadline initialHooks 1 2 3 4 0 7) = []
  ∧ (traceEventsOf (swift_task_enqueueGlobalWithDeadline initialHooks 1 2 3 4 0 7)).length = 0
  ∧ traceEventsOf
      (swift_task_enqueueGlobalWithDeadline
        { initialHooks with swift_task_enqueueGlobalWithDeadline_hook := some 9 }
        1 2 3 4 0 7) = [] := by
  exact ⟨rfl, rfl, rfl⟩

/-- C2 (amended): the immediate, delayed and main-executor entry points each
emit exactly one trace event, tagged with the operation kind and the job
identity (and the delay for the delayed variant), and the trace emission
occurs strictly before the routing to the hook or default implementation; the
deadline entry point swift_task_enqueueGlobalWithDeadline emits no trace event
at all. -/
theorem C2_trace_per_entry_point :
    ∀ (hooks : HookState) (job : Job) (delay : JobDelay)
      (sec nsec tsec tnsec clock : Int),
    traceEventsOf (swift_task_enqueueGlobal hooks job) =
      [TraceEventData.jobEnqueueGlobal job]
  ∧ traceBeforeRouting (swift_task_enqueueGlobal hooks job) = true
  ∧ traceEventsOf (swift_task_enqueueGlobalWithDelay hooks delay job) =
      [TraceEventData.jobEnqueueGlobalWithDelay delay job]
  ∧ traceBeforeRouting (swift_task_enqueueGlobalWithDelay hooks delay job) = true
  ∧ traceEventsOf (swift_task_enqueueMainExecutor hooks job) =
      [TraceEventData.jobEnqueueMainExecutor job]
  ∧ traceBeforeRouting (swift_task_enqueueMainExecutor hooks job) = true
  ∧ traceEventsOf (swift_task_enqueueGlobalWithDeadline hooks sec nsec tsec tnsec clock job)
      = [] := by
  intro hooks job delay sec nsec tsec tnsec clock
  obtain ⟨g, d, dl, m⟩ := hooks
  cases g <;> cases d <;> cases dl <;> cases m <;>
    exact ⟨rfl, rfl, rfl, rfl, rfl, rfl, rfl⟩

/-- C3: evaluation of the code at the failing input.  In a dispatch build,
after the main-actor override has installed identity 2 with capabilities 7
(starting from the zero-initialized override cells), isMainExecutor still
returns false for a reference carrying the new identity 2 and still returns
true for a reference carrying the compiled-in dispatch main queue identity:
the body of ExecutorRef::isMainExecutor never consults the override cells. -/
theorem C3_override_ignored_eval :
    isMainExecutorInState true
      (setMainActorExecutorImplModel 2 7 initialMainOverride)
      { Identity := 2, Implementation := 7 } = false
  ∧ isMainExecutorInState true
      (setMainActorExecutorImplModel 2 7 initialMainOverride)
      { Identity := dispatchMainQAddr, Implementation := 7 } = true
  ∧ (setMainActorExecutorImplModel 2 7 initialMainOverride).mainExecutorIdentityOverride
      = some 2 := by
  exact ⟨rfl, rfl, rfl⟩

/-- C5: the result of isMainExecutor depends only on the Identity component of
the executor reference; for any build configuration, two references with the
same identity but arbitrary (possibly different) implementation words receive
the same answer. -/
theorem C5_identity_only :
    ∀ (enableDispatch : Bool) (e1 e2 : ExecutorRef),
    e1.Identity = e2.Identity →
    ExecutorRef.isMainExecutor enableDispatch e1 =
      ExecutorRef.isMainExecutor enableDispatch e2 := by
  intro enableDispatch e1 e2 h
  simp [ExecutorRef.isMainExecutor, ExecutorRef.isGeneric, h]

/-- Witness for C5 at a concrete input: identity 1 with capability tables 5
and 9. -/
theorem C5_identity_only_witness :
    ({ Identity := 1, Implementation := 5 } : ExecutorRef).Identity =
      ({ Identity := 1, Implementation := 9 } : ExecutorRef).Identity
  ∧ ExecutorRef.isMainExecutor true { Identity := 1, Implementation := 5 } =
      ExecutorRef.isMainExecutor true { Identity := 1, Implementation := 9 } :=
  ⟨rfl, C5_identity_only true
    { Identity := 1, Implementation := 5 }
    { Identity := 1, Implementation := 9 } rfl⟩

/-- C6: at process start all four hook slots are null, and each entry point,
called in that initial state, performs no hook call and exactly one
default-implementation call carrying its arguments. -/
theorem C6_initial_hooks_null :
    ∀ (job : Job) (delay : JobDelay) (sec nsec tsec tnsec clock : Int),
    initialHooks.swift_task_enqueueGlobal_hook = none
  ∧ initialHooks.swift_task_enqueueGlobalWithDelay_hook = none
  ∧ initialHooks.swift_task_enqueueGlobalWithDeadline_hook = none
  ∧ initialHooks.swift_task_enqueueMainExecutor_hook = none
  ∧ hookCallsOf (swift_task_enqueueGlobal initialHooks job) = []
  ∧ implCallsOf (swift_task_enqueueGlobal initialHooks job) =
      [(ImplRef.enqueueGlobalImpl, EnqueueArgs.global job)]
  ∧ hookCallsOf (swift_task_enqueueGlobalWithDelay initialHooks delay job) = []
  ∧ implCallsOf (swift_task_enqueueGlobalWithDelay initialHooks delay job) =
      [(ImplRef.enqueueGlobalWithDelayImpl, EnqueueArgs.withDelay delay job)]
  ∧ hookCallsOf
      (swift_task_enqueueGlobalWithDeadline initialHooks sec nsec tsec tnsec clock job) = []
  ∧ implCallsOf
      (swift_task_enqueueGlobalWithDeadline initialHooks sec nsec tsec tnsec clock job) =
      [(ImplRef.enqueueGlobalWithDeadlineImpl,
        EnqueueArgs.withDeadline sec nsec tsec tnsec clock job)]
  ∧ hookCallsOf (swift_task_enqueueMainExecutor initialHooks job) = []
  ∧ implCallsOf (swift_task_enqueueMainExecutor initialHooks job) =
      [(ImplRef.enqueueMainExecutorImpl, EnqueueArgs.mainExecutor job)] := by
  intro job delay sec nsec tsec tnsec clock
  exact ⟨rfl, rfl, rfl, rfl, rfl, rfl, rfl, rfl, rfl, rfl, rfl, rfl⟩

/-- C7: every entry point routes exactly one argument tuple onward, carrying
the very job reference it received, and the deadline entry point forwards its
six arguments (sec, nsec, tsec, tnsec, clock, job) unchanged and in source
order, whether a hook is installed or not. -/
theorem C7_arguments_forwarded :
    ∀ (hooks : HookState) (job : Job) (delay : JobDelay)
      (sec nsec tsec tnsec clock : Int),
    routedArgsOf (swift_task_enqueueGlobal hooks job) = [EnqueueArgs.global job]
  ∧ routedArgsOf (swift_task_enqueueGlobalWithDelay hooks delay job) =
      [EnqueueArgs.withDelay delay job]
  ∧ routedArgsOf (swift_task_enqueueGlobalWithDeadline hooks sec nsec tsec tnsec clock job) =
      [EnqueueArgs.withDeadline sec nsec tsec tnsec clock job]
  ∧ routedArgsOf (swift_task_enqueueMainExecutor hooks job) =
      [EnqueueArgs.mainExecutor job] := by
  intro hooks job delay sec nsec tsec tnsec clock
  obtain ⟨g, d, dl, m⟩ := hooks
  cases g <;> cases d <;> cases dl <;> cases m <;>
    exact ⟨rfl, rfl, rfl, rfl⟩

/-- Invariant of the main-context serial queue under any interleaving: the
jobs already executed followed by the jobs still pending is exactly the
sequence of jobs whose enqueues completed, in completion order. -/
theorem mainQueue_foldl_invariant (steps : List MainThreadStep) :
    ∀ s : MainQueueState,
    (steps.foldl mainQueueStep s).executed ++ (steps.foldl mainQueueStep s).pending
      = s.executed ++ (s.pending ++ enqueueOrder steps) := by
  induction steps with
  | nil =>
    intro s
    simp [enqueueOrder]
  | cons st rest ih =>
    intro s
    cases st with
    | enqueueCompleted j =>
      simp only [List.foldl_cons, mainQueueStep]
      rw [ih]
      simp [enqueueOrder, List.filterMap_cons]
    | runNext =>
      simp only [List.foldl_cons, mainQueueStep]
      cases hp : s.pending with
      | nil =>
        rw [ih]
        simp [enqueueOrder, hp, List.filterMap_cons]
      | cons j tail =>
        rw [ih]
        simp [enqueueOrder, hp, List.filterMap_cons]

/-- C4: for every serialized interleaving of enqueue completions (from any
number of threads) and main-thread execution steps, the jobs executed so far,
in execution order, followed by the jobs still pending, equal the jobs in
enqueue-completion order: main-context jobs run strictly in the order their
enqueue calls completed.  Moreover each main-thread step runs at most one job,
so no two main-context jobs run concurrently. -/
theorem C4_main_executor_fifo :
    ∀ steps : List MainThreadStep,
    ((mainQueueRun steps).executed ++ (mainQueueRun steps).pending
        = enqueueOrder steps)
  ∧ (∀ s : MainQueueState,
      (mainQueueStep s MainThreadStep.runNext).executed.length ≤ s.executed.length + 1) := by
  intro steps
  constructor
  · have h := mainQueue_foldl_invariant steps mainQueueInit
    simpa [mainQueueRun, mainQueueInit] using h
  · intro s
    cases hp : s.pending with
    | nil => simp [mainQueueStep, hp]
    | cons j tail => simp [mainQueueStep, hp]

/-- C8: in both build configurations, the reference returned by
swift_task_getMainExecutor satisfies isMainExecutor. -/
theorem C8_getMainExecutor_isMain :
    ∀ enableDispatch : Bool,
    ExecutorRef.isMainExecutor enableDispatch
      (swift_task_getMainExecutor enableDispatch) = true := by
  decide

/-- C9: in builds without dispatch support, isMainExecutor coincides with
isGeneric on every reference, so every reference with a null identity is
classified as the main executor regardless of its implementation word. -/
theorem C9_nondispatch_generic :
    (∀ e : ExecutorRef, ExecutorRef.isMainExecutor false e = e.isGeneric)
  ∧ (∀ impl : Nat,
      ExecutorRef.isMainExecutor false { Identity := 0, Implementation := impl } = true) := by
  exact ⟨fun e => rfl, fun impl => rfl⟩

/-- C10: swift_concurrency_setMainActorExecutor performs exactly one call to
swift_concurrency_setMainActorExecutorImpl with its three arguments unchanged,
consults no hook slot, and writes exactly one diagnostic line to stderr. -/
theorem C10_setMainActorExecutor :
    ∀ executor selfType wtable : Nat,
    setMainActorImplCallsOf (swift_concurrency_setMainActorExecutor executor selfType wtable) =
      [(executor, selfType, wtable)]
  ∧ hookCallsOf (swift_concurrency_setMainActorExecutor executor selfType wtable) = []
  ∧ stderrWriteCount (swift_concurrency_setMainActorExecutor executor selfType wtable) = 1 := by
  intro executor selfType wtable
  exact ⟨rfl, rfl, rfl⟩

end GlobalExecutor
